import Mathlib

/-!
Shallow embedding of the multi-model forecasting and explainability core of the
trading-dashboard backend:

- app/services/ml_service.py      (MLPredictionService.predict_stock_price)
- app/services/model_loader.py    (ModelLoader: _load_model, load_models,
                                   _prepare_data_for_prediction, predict)
- app/services/explainability_service.py
                                  (ModelExplainabilityService: _load_model_and_data,
                                   explain_prediction)
- app/api/v1/endpoints/predictions.py (explain endpoint error mapping)

Python floats are embedded as real numbers; numpy mean/std and the pandas rolling
statistics are written out explicitly; fallible code returns Option/Except, and the
try/except structure of the source is mirrored by an inner Except-valued body plus
an outer handler.
-/

namespace TradingForecast

/-! ## Ensemble forecaster: MLPredictionService.predict_stock_price -/

/-- Embedding of np.mean on a list of floats: sum divided by length. -/
noncomputable def npMean (xs : List ℝ) : ℝ := xs.sum / xs.length

/-- Embedding of np.std on a list of floats (default ddof = 0, population
standard deviation): square root of the mean squared deviation. -/
noncomputable def npStd (xs : List ℝ) : ℝ :=
  Real.sqrt ((xs.map (fun x => (x - npMean xs) ^ 2)).sum / xs.length)

/-- One per-horizon entry of the predictions dict built by predict_stock_price. -/
structure HorizonPred where
  price : ℝ
  confidence : ℝ
  model : String
  model_predictions : List (String × ℝ)

/-- The clamped confidence expression from ml_service.py:
max(0.5, min(0.95, 0.85 - pred_std / current_price * 10)), as a function of the
already-computed standard deviation. -/
noncomputable def confFromStd (pred_std current_price : ℝ) : ℝ :=
  max 0.5 (min 0.95 (0.85 - pred_std / current_price * 10))

/-- Per-horizon confidence: the code computes the clamped agreement score when more
than one model contributed, and 0.75 otherwise. -/
noncomputable def horizonConfidence (vals : List ℝ) (current_price : ℝ) : ℝ :=
  if 1 < vals.length then confFromStd (npStd vals) current_price
  else 0.75

/-- base_change = (avg_prediction - current_price) / current_price, guarded by
current_price > 0 (else 0.0), as in ml_service.py. -/
noncomputable def baseChange (avg current_price : ℝ) : ℝ :=
  if 0 < current_price then (avg - current_price) / current_price else 0

/-- The fixed horizon multipliers of predict_stock_price. -/
def horizonMultipliers : List (String × ℝ) := [("7d", 1), ("15d", 1.4), ("30d", 1.8)]

/-- The predictions dict built by the horizon loop of predict_stock_price: one entry
per horizon, each holding the projected price, the agreement confidence, a label with
the number of contributing models, and the per-model prediction map. -/
noncomputable def makePredictions (current_price : ℝ)
    (model_predictions : List (String × ℝ)) : List (String × HorizonPred) :=
  let vals := model_predictions.map Prod.snd
  let avg := npMean vals
  let base_change := baseChange avg current_price
  horizonMultipliers.map (fun hm =>
    (hm.1,
      { price := current_price * (1 + base_change * hm.2),
        confidence := horizonConfidence vals current_price,
        model := toString model_predictions.length ++ " Models (LSTM, GRU, Attention LSTM)",
        model_predictions := model_predictions }))

/-- The model_predictions map after the fallback stage of predict_stock_price: when
the loader produced no predictions, the explainability-service LSTM prediction (if it
was obtained) is installed under the lstm key. -/
def effectivePreds (model_preds : List (String × ℝ)) (fallback_lstm : Option ℝ) :
    List (String × ℝ) :=
  if model_preds.isEmpty then
    match fallback_lstm with
    | some p => [("lstm", p)]
    | none => []
  else model_preds

/-- Body of MLPredictionService.predict_stock_price: everything inside its top-level
try block. Inputs: the current price from market data (none if the quote could not be
fetched), the per-model predictions that were successfully obtained from the loader,
and the optional fallback LSTM prediction obtained from the explainability service
when the loader produced none. A raised ValueError is an Except.error. -/
noncomputable def predictStockPriceBody (stock_info_price : Option ℝ)
    (model_preds : List (String × ℝ)) (fallback_lstm : Option ℝ)
    (timeframe : String) : Except String (List (String × HorizonPred)) :=
  match stock_info_price with
  | none => Except.error "Could not fetch market data for symbol"
  | some current_price =>
    if (effectivePreds model_preds fallback_lstm).isEmpty then
      Except.error "No model predictions available. Please train models first."
    else
      Except.ok (makePredictions current_price (effectivePreds model_preds fallback_lstm))

/-- MLPredictionService.predict_stock_price: the body wrapped in the method's own
outer handler, which catches every exception and returns the empty dict.
The timeframe argument is only ever inspected for a log message. -/
noncomputable def predict_stock_price (stock_info_price : Option ℝ)
    (model_preds : List (String × ℝ)) (fallback_lstm : Option ℝ)
    (timeframe : String) : List (String × HorizonPred) :=
  match predictStockPriceBody stock_info_price model_preds fallback_lstm timeframe with
  | Except.ok r => r
  | Except.error _ => []

/-- Reads the projected price that predict_stock_price reports for one horizon label
(0 when the label is not a horizon key). -/
noncomputable def horizonPrice (p : ℝ) (preds : List (String × ℝ)) (h : String) : ℝ :=
  match (makePredictions p preds).lookup h with
  | some hp => hp.price
  | none => 0

/-! ## Artifact registry: ModelLoader (model_loader.py) -/

/-- The three model architectures handled by ModelLoader. -/
inductive ModelType
  | lstm
  | gru
  | attention_lstm
deriving DecidableEq

/-- Embedding of Python str.lower() on ASCII symbol names, written as a map over the
character list so that it reduces definitionally. -/
def lowerStr (s : String) : String := ⟨s.data.map Char.toLower⟩

/-- Embedding of Python str.upper() on ASCII model-type tags, written as a map over
the character list so that it reduces definitionally. -/
def upperStr (s : String) : String := ⟨s.data.map Char.toUpper⟩

/-- The string tag of a model type, as used in file names and registry keys. -/
def modelKey : ModelType → String
  | ModelType.lstm => "lstm"
  | ModelType.gru => "gru"
  | ModelType.attention_lstm => "attention_lstm"

/-- Weight-file path: the model-type tag, an underscore, the lowercased symbol, and the .pth suffix. -/
def model_path (mt : ModelType) (symbol : String) : String :=
  modelKey mt ++ "_" ++ lowerStr symbol ++ ".pth"

/-- Scaler-file path: the model-type tag, an underscore, the lowercased symbol, and the _scaler.pkl suffix. -/
def scaler_path (mt : ModelType) (symbol : String) : String :=
  modelKey mt ++ "_" ++ lowerStr symbol ++ "_scaler.pkl"

/-- In-memory registry key: the model-type tag, an underscore, and the lowercased symbol. -/
def registryKey (mt : ModelType) (symbol : String) : String :=
  modelKey mt ++ "_" ++ lowerStr symbol

/-- Parameter-key names of one recurrent layer of a torch state dict. -/
def rnnLayerKeys (layer : String) : List String :=
  [layer ++ ".weight_ih_l0", layer ++ ".weight_hh_l0",
   layer ++ ".bias_ih_l0", layer ++ ".bias_hh_l0"]

/-- The state-dict parameter keys expected by the backend architecture classes of
model_loader.py: LSTMModel has lstm1/lstm2/lstm3 plus fc; GRUModel has gru1/gru2 plus
fc; AttentionLSTMModel has lstm1, attention.attention, lstm2 plus fc. -/
def expectedKeys : ModelType → List String
  | ModelType.lstm =>
      rnnLayerKeys "lstm1" ++ rnnLayerKeys "lstm2" ++ rnnLayerKeys "lstm3" ++
        ["fc.weight", "fc.bias"]
  | ModelType.gru =>
      rnnLayerKeys "gru1" ++ rnnLayerKeys "gru2" ++ ["fc.weight", "fc.bias"]
  | ModelType.attention_lstm =>
      rnnLayerKeys "lstm1" ++ ["attention.attention.weight", "attention.attention.bias"] ++
        rnnLayerKeys "lstm2" ++ ["fc.weight", "fc.bias"]

/-- A stored weight blob is abstracted to the list of parameter keys it holds; torch
load_state_dict with strict=True succeeds exactly when there is no missing and no
unexpected key, i.e. when the stored keys and the architecture's expected keys agree
as sets. -/
def loadStateDictOk (stored : List String) (mt : ModelType) : Bool :=
  (expectedKeys mt).all (fun k => stored.contains k) &&
    stored.all (fun k => (expectedKeys mt).contains k)

/-- Error raised by the strict state-dict load in ModelLoader._load_model. -/
inductive LoadErr
  | archMismatch (mt : ModelType) (symbol : String)
deriving DecidableEq

/-- The RuntimeError message raised by _load_model on an architecture mismatch: it
names the architecture and symbol and instructs retraining. -/
def archMismatchMessage (mt : ModelType) (symbol : String) : String :=
  "Model architecture mismatch. The saved " ++ modelKey mt ++ " model for " ++ symbol ++
    " was trained with an old architecture. Please retrain the model. Run: cd ml/scripts && python train_" ++
    modelKey mt ++ ".py --symbol " ++ symbol ++ " --epochs 200"

/-- Message carried by a LoadErr. -/
def loadErrMessage : LoadErr → String
  | LoadErr.archMismatch mt symbol => archMismatchMessage mt symbol

/-- The artifact directory contents: weight files are abstracted to their stored
state-dict keys, scaler files to an opaque deserialized payload (its numeric content
is modelled separately for the inverse-scaling claims). -/
structure FS where
  weight_files : List (String × List String)
  scaler_files : List (String × ℕ)

/-- A loaded model value: the architecture it was built for plus the state dict that
was loaded into it. -/
def ModelV := ModelType × List String
deriving instance DecidableEq for ModelV

/-- The try-block of ModelLoader._load_model once both files exist and have been
deserialized (stored keys sd, scaler payload sc): the strict state-dict load either
succeeds or raises the architecture-mismatch RuntimeError. -/
def load_model_attempt (sd : List String) (sc : ℕ) (mt : ModelType)
    (symbol : String) : Except LoadErr (ModelV × ℕ) :=
  if loadStateDictOk sd mt then Except.ok ((mt, sd), sc)
  else Except.error (LoadErr.archMismatch mt symbol)

/-- ModelLoader._load_model. Returns the (model, scaler) pair — none on every failure,
since the missing-file branch returns (None, None) before the try block and the
blanket `except Exception` handler turns every raised error (the architecture
mismatch included) into (None, None) as well — together with the number of artifact
files deserialized during the call (scaler unpickle + weight load), the
instrumentation counter for the idempotence claim. -/
def load_model (fs : FS) (mt : ModelType) (symbol : String) :
    Option (ModelV × ℕ) × ℕ :=
  match fs.weight_files.lookup (model_path mt symbol),
        fs.scaler_files.lookup (scaler_path mt symbol) with
  | some sd, some sc =>
      match load_model_attempt sd sc mt symbol with
      | Except.ok p => (some p, 2)
      | Except.error _ => (none, 2)
  | _, _ => (none, 0)

/-- Mutable state of a ModelLoader instance: the two in-memory maps plus the
deserialization counter. -/
structure RegistryState where
  models : List (String × ModelV)
  scalers : List (String × ℕ)
  deserials : ℕ

/-- Python dict assignment d[k] = v on an association list. -/
def dictInsert {α : Type} (k : String) (v : α) (m : List (String × α)) :
    List (String × α) :=
  (k, v) :: m.filter (fun p => p.1 != k)

/-- One iteration of the loop in ModelLoader.load_models for a single model type:
on success both maps are updated under the registry key, on failure the state is
unchanged; the availability flag is returned either way. -/
def loadStep (fs : FS) (symbol : String) (mt : ModelType) (st : RegistryState) :
    RegistryState × Bool :=
  match load_model fs mt symbol with
  | (some (m, sc), c) =>
      ({ models := dictInsert (registryKey mt symbol) m st.models,
         scalers := dictInsert (registryKey mt symbol) sc st.scalers,
         deserials := st.deserials + c }, true)
  | (none, c) => ({ st with deserials := st.deserials + c }, false)

/-- ModelLoader.load_models: runs _load_model for lstm, gru and attention_lstm in
order, updating the in-memory maps, and returns the per-architecture availability
results. There is no cache check: _load_model is invoked unconditionally. -/
def load_models (fs : FS) (symbol : String) (st : RegistryState) :
    RegistryState × List (ModelType × Bool) :=
  let s1 := loadStep fs symbol ModelType.lstm st
  let s2 := loadStep fs symbol ModelType.gru s1.1
  let s3 := loadStep fs symbol ModelType.attention_lstm s2.1
  (s3.1, [(ModelType.lstm, s1.2), (ModelType.gru, s2.2),
          (ModelType.attention_lstm, s3.2)])

/-- Total number of artifact-file deserializations performed by one load_models call,
independent of the registry state. -/
def loadCost (fs : FS) (symbol : String) : ℕ :=
  (load_model fs ModelType.lstm symbol).2 + (load_model fs ModelType.gru symbol).2 +
    (load_model fs ModelType.attention_lstm symbol).2

/-! ## Explainability: ModelExplainabilityService (explainability_service.py) -/

/-- Errors raised inside ModelExplainabilityService._load_model_and_data and
explain_prediction; each mirrors a concrete Python exception. -/
inductive ExplainErr
  | artifactNotFound (mt : ModelType) (symbol : String)
  | trainingModuleMissing (mt : ModelType)
  | unknownModelType (mt : ModelType)
  | notEnoughTrainData (symbol : String)
  | modelInitError (mt : ModelType)
  | notEnoughTestData (symbol : String)
deriving DecidableEq

/-- ModelExplainabilityService._load_model_and_data. The artifact existence check
comes first and raises FileNotFoundError naming the requested architecture and
symbol; only then are the training modules imported (train_gru.py does not exist in
ml/scripts, and model types other than lstm/gru are rejected by
_import_training_modules), the training data prepared and checked for emptiness, and
the model constructed — the construction call ModelClass with only input_size and
output_size omits the required hidden_size and num_layers of the training-script
LSTMModel and raises TypeError before the strict state-dict load is reached. -/
def load_model_and_data (fs : FS) (symbol : String) (mt : ModelType)
    (xtrainLen : ℕ) : Except ExplainErr Unit :=
  match fs.weight_files.lookup (model_path mt symbol),
        fs.scaler_files.lookup (scaler_path mt symbol) with
  | some _, some _ =>
      match mt with
      | ModelType.lstm =>
          if xtrainLen = 0 then Except.error (ExplainErr.notEnoughTrainData symbol)
          else Except.error (ExplainErr.modelInitError ModelType.lstm)
      | ModelType.gru => Except.error (ExplainErr.trainingModuleMissing ModelType.gru)
      | ModelType.attention_lstm =>
          Except.error (ExplainErr.unknownModelType ModelType.attention_lstm)
  | _, _ => Except.error (ExplainErr.artifactNotFound mt symbol)

/-- ModelExplainabilityService.explain_prediction: both of its handlers re-raise, so
every error of _load_model_and_data propagates unchanged; on success the test data is
checked for emptiness before the explanation is produced. -/
def explain_prediction (fs : FS) (symbol : String) (mt : ModelType)
    (xtrainLen xtestLen : ℕ) : Except ExplainErr Unit :=
  match load_model_and_data fs symbol mt xtrainLen with
  | Except.error e => Except.error e
  | Except.ok d =>
      if xtestLen = 0 then Except.error (ExplainErr.notEnoughTestData symbol)
      else Except.ok d

/-- The explain endpoint of predictions.py: the model_type query argument is first
validated to be lstm or gru — anything else is rejected with an HTTP 400 before the
explainability service is called (its detail message quotes the two accepted tags).
Only then is the service invoked; FileNotFoundError is mapped to an HTTP 404 whose
detail says the requested model is not trained and must be trained first; every
other error becomes a 500. -/
def explainEndpointResult (fs : FS) (symbol : String) (mt : ModelType)
    (xtrainLen xtestLen : ℕ) : Except (ℕ × String) Unit :=
  match mt with
  | ModelType.attention_lstm =>
      Except.error (400, "model_type must be 'lstm' or 'gru'")
  | _ =>
    match explain_prediction fs symbol mt xtrainLen xtestLen with
    | Except.ok d => Except.ok d
    | Except.error (ExplainErr.artifactNotFound _ _) =>
        Except.error (404, upperStr (modelKey mt) ++
          " model not trained for this symbol. Please train the model first.")
    | Except.error _ => Except.error (500, "Failed to generate explanation")

/-! ## Scaler inverse transform and output recovery
(ModelLoader.predict, ModelExplainabilityService.explain_prediction) -/

/-- A fitted sklearn MinMaxScaler over the four features, default feature range
(0, 1): it is determined by the per-feature data minimum and maximum fitted at
training time. -/
structure MinMaxScaler where
  dataMin : Fin 4 → ℝ
  dataMax : Fin 4 → ℝ

/-- MinMaxScaler.inverse_transform on one row, default feature range (0, 1):
componentwise y * (data_max - data_min) + data_min. -/
noncomputable def inverse_transform (s : MinMaxScaler) (y : Fin 4 → ℝ) : Fin 4 → ℝ :=
  fun i => y i * (s.dataMax i - s.dataMin i) + s.dataMin i

/-- MinMaxScaler.transform on one row, default feature range (0, 1):
componentwise (x - data_min) / (data_max - data_min). -/
noncomputable def transformRow (s : MinMaxScaler) (x : Fin 4 → ℝ) : Fin 4 → ℝ :=
  fun i => (x i - s.dataMin i) / (s.dataMax i - s.dataMin i)

/-- Output recovery in ModelLoader.predict: build the row np.array of
prediction_scaled followed by three zeros, inverse-transform it, and read entry
[0, 0]. -/
noncomputable def recoverPrice (s : MinMaxScaler) (p : ℝ) : ℝ :=
  inverse_transform s ![p, 0, 0, 0] 0

/-- Output recovery in ModelExplainabilityService.explain_prediction, used both for
the model output and for the SHAP base value: allocate a zero row, assign the value
to column 0, inverse-transform, and read column 0. -/
noncomputable def recoverBaseValue (s : MinMaxScaler) (v : ℝ) : ℝ :=
  inverse_transform s (Function.update (fun _ => (0 : ℝ)) 0 v) 0

/-- Modelled from the spec: place the predicted value into the close-price feature
slot, zero-fill the other three slots, apply the paired scaler's inverse transform,
then read back the close-price slot. Stated from the spec's words for comparison
with the two code-side recovery definitions. -/
noncomputable def specOutputRecovery (s : MinMaxScaler) (v : ℝ) : ℝ :=
  inverse_transform s (fun i => if i = 0 then v else 0) 0

/-! ## Feature sequence builder: ModelLoader._prepare_data_for_prediction -/

/-- The trailing window of length w of the series ending at row i (the rows pandas
rolling(w) aggregates at row i). -/
def windowAt (w : ℕ) (xs : List ℝ) (i : ℕ) : List ℝ := (xs.drop (i + 1 - w)).take w

/-- Embedding of pandas Series.rolling(w).mean() at row i: undefined (NaN) until the
window is full. -/
noncomputable def rollingMean (w : ℕ) (xs : List ℝ) (i : ℕ) : Option ℝ :=
  if w ≤ i + 1 then some ((windowAt w xs i).sum / w) else none

/-- Embedding of pandas Series.rolling(w).std() at row i (sample standard deviation,
ddof = 1): undefined (NaN) until the window is full. -/
noncomputable def rollingStd (w : ℕ) (xs : List ℝ) (i : ℕ) : Option ℝ :=
  if w ≤ i + 1 then
    some (Real.sqrt (((windowAt w xs i).map
      (fun x => (x - (windowAt w xs i).sum / w) ^ 2)).sum / (w - 1)))
  else none

/-- Row i of the feature frame built by _prepare_data_for_prediction: Close, MA_20,
MA_50 and Volatility; the row survives dropna exactly when every feature is
defined. -/
noncomputable def featureRow (xs : List ℝ) (i : ℕ) : Option (ℝ × ℝ × ℝ × ℝ) :=
  match xs.get? i, rollingMean 20 xs i, rollingMean 50 xs i, rollingStd 20 xs i with
  | some c, some m20, some m50, some v => some (c, m20, m50, v)
  | _, _, _, _ => none

/-- The value of a defined feature row (and an arbitrary default on warm-up rows,
where it is never used). -/
noncomputable def featureAt (xs : List ℝ) (i : ℕ) : ℝ × ℝ × ℝ × ℝ :=
  (featureRow xs i).getD (0, 0, 0, 0)

/-- The feature frame after data.dropna(): the rows, in order, whose features are all
defined. -/
noncomputable def validRows (xs : List ℝ) : List (ℝ × ℝ × ℝ × ℝ) :=
  (List.range xs.length).filterMap (featureRow xs)

/-- ModelLoader._prepare_data_for_prediction on the fetched close series: empty
history fails, the four features are computed and the warm-up rows dropped, fewer
than sequence_length surviving rows fails, and otherwise exactly the last
sequence_length rows are returned. -/
noncomputable def prepare_data_for_prediction (xs : List ℝ)
    (sequence_length : ℕ) : Option (List (ℝ × ℝ × ℝ × ℝ)) :=
  if xs.isEmpty then none
  else if (validRows xs).length < sequence_length then none
  else some ((validRows xs).drop ((validRows xs).length - sequence_length))

/-- Read one prepared row as the four-feature vector fed to the scaler. -/
def rowVec (r : ℝ × ℝ × ℝ × ℝ) : Fin 4 → ℝ := ![r.1, r.2.1, r.2.2.1, r.2.2.2]

/-- The data/inference path of ModelLoader.predict once model and scaler are loaded:
prepare the most recent window; if preparation failed, return None before any scaling
or inference; otherwise scale the window with the model's scaler, run the network on
the scaled sequence (the trained network is an uninterpreted function of that
sequence), and inverse-scale the scalar output back to price units. -/
noncomputable def predictFromData (s : MinMaxScaler)
    (net : List (Fin 4 → ℝ) → ℝ) (closes : List ℝ) : Option ℝ :=
  match prepare_data_for_prediction closes 120 with
  | none => none
  | some w => some (recoverPrice s (net (w.map (fun r => transformRow s (rowVec r)))))

/-! ## Concrete artifact-directory fixtures used by counterexamples and witnesses -/

/-- An artifact directory holding a well-formed lstm artifact pair for aapl and
nothing else. -/
def fsOneModel : FS :=
  { weight_files := [("lstm_aapl.pth", expectedKeys ModelType.lstm)],
    scaler_files := [("lstm_aapl_scaler.pkl", 7)] }

/-- An artifact directory whose lstm weight file for aapl stores a state dict with a
single unexpected key foo (and none of the expected ones). -/
def fsMismatch : FS :=
  { weight_files := [("lstm_aapl.pth", ["foo"])],
    scaler_files := [("lstm_aapl_scaler.pkl", 7)] }

/-- An empty artifact directory. -/
def fsEmpty : FS := { weight_files := [], scaler_files := [] }

/-- An artifact directory holding only a gru artifact pair for aapl: the spec
scenario for requesting an explanation of a different architecture. -/
def fsGruOnly : FS :=
  { weight_files := [("gru_aapl.pth", expectedKeys ModelType.gru)],
    scaler_files := [("gru_aapl_scaler.pkl", 3)] }

/-- A fresh ModelLoader state: empty maps, zero deserializations performed. -/
def emptyRegistry : RegistryState := { models := [], scalers := [], deserials := 0 }

/-! ## Supporting lemmas -/

lemma lookup_filter_ne {α : Type} {k kk : String} (h : kk ≠ k) (m : List (String × α)) :
    (m.filter (fun p => p.1 != k)).lookup kk = m.lookup kk := by
  induction m with
  | nil => rfl
  | cons p t ih =>
    by_cases hp : p.1 = k
    · have hf : (p.1 != k) = false := by simp [hp]
      have hb : (kk == p.1) = false := by simp [hp, h]
      simp [List.filter_cons, hf, List.lookup, hb, ih]
    · have hf : (p.1 != k) = true := by simp [hp]
      cases hb : kk == p.1 <;> simp [List.filter_cons, hf, List.lookup, hb, ih]

lemma lookup_dictInsert_self {α : Type} (k : String) (v : α) (m : List (String × α)) :
    (dictInsert k v m).lookup k = some v := by
  simp [dictInsert, List.lookup]

lemma lookup_dictInsert_ne {α : Type} {k kk : String} (h : kk ≠ k) (v : α)
    (m : List (String × α)) :
    (dictInsert k v m).lookup kk = m.lookup kk := by
  have hb : (kk == k) = false := by simp [h]
  simp [dictInsert, List.lookup, hb, lookup_filter_ne h]

lemma registryKey_ne {mt mt2 : ModelType} (h : mt ≠ mt2) (symbol : String) :
    registryKey mt symbol ≠ registryKey mt2 symbol := by
  intro he
  have hlen := congrArg String.length he
  unfold registryKey at hlen
  rw [String.length_append, String.length_append, String.length_append,
    String.length_append] at hlen
  have h1 : "_".length = 1 := rfl
  cases mt <;> cases mt2 <;> simp only [modelKey] at hlen <;>
    first
      | exact h rfl
      | (have h2 : "lstm".length = 4 := rfl
         have h3 : "gru".length = 3 := rfl
         have h4 : "attention_lstm".length = 14 := rfl
         omega)

lemma loadStep_deserials (fs : FS) (symbol : String) (mt : ModelType)
    (st : RegistryState) :
    ((loadStep fs symbol mt st).1).deserials
      = st.deserials + (load_model fs mt symbol).2 := by
  unfold loadStep
  rcases hl : load_model fs mt symbol with ⟨_ | ⟨m, sc⟩, c⟩ <;> rfl

lemma loadStep_snd (fs : FS) (symbol : String) (mt : ModelType) (st : RegistryState) :
    (loadStep fs symbol mt st).2 = ((load_model fs mt symbol).1).isSome := by
  unfold loadStep
  rcases hl : load_model fs mt symbol with ⟨_ | ⟨m, sc⟩, c⟩ <;> rfl

lemma loadStep_lookup_self (fs : FS) (symbol : String) (mt : ModelType)
    (st : RegistryState) :
    (((loadStep fs symbol mt st).1).models.lookup (registryKey mt symbol) =
      match (load_model fs mt symbol).1 with
      | some p => some p.1
      | none => st.models.lookup (registryKey mt symbol))
    ∧ (((loadStep fs symbol mt st).1).scalers.lookup (registryKey mt symbol) =
      match (load_model fs mt symbol).1 with
      | some p => some p.2
      | none => st.scalers.lookup (registryKey mt symbol)) := by
  unfold loadStep
  rcases hl : load_model fs mt symbol with ⟨_ | ⟨m, sc⟩, c⟩ <;>
    simp [lookup_dictInsert_self]

lemma loadStep_lookup_other (fs : FS) (symbol : String) {mt mt2 : ModelType}
    (h : mt2 ≠ mt) (st : RegistryState) :
    (((loadStep fs symbol mt st).1).models.lookup (registryKey mt2 symbol) =
      st.models.lookup (registryKey mt2 symbol))
    ∧ (((loadStep fs symbol mt st).1).scalers.lookup (registryKey mt2 symbol) =
      st.scalers.lookup (registryKey mt2 symbol)) := by
  unfold loadStep
  rcases hl : load_model fs mt symbol with ⟨_ | ⟨m, sc⟩, c⟩ <;>
    simp [lookup_dictInsert_ne (registryKey_ne h symbol)]

lemma load_models_lookup (fs : FS) (symbol : String) (st : RegistryState)
    (mt : ModelType) :
    (((load_models fs symbol st).1).models.lookup (registryKey mt symbol) =
      match (load_model fs mt symbol).1 with
      | some p => some p.1
      | none => st.models.lookup (registryKey mt symbol))
    ∧ (((load_models fs symbol st).1).scalers.lookup (registryKey mt symbol) =
      match (load_model fs mt symbol).1 with
      | some p => some p.2
      | none => st.scalers.lookup (registryKey mt symbol)) := by
  unfold load_models
  cases mt with
  | lstm =>
      have h1 := loadStep_lookup_self fs symbol ModelType.lstm st
      have h2 := loadStep_lookup_other fs symbol
        (show ModelType.lstm ≠ ModelType.gru by simp)
        ((loadStep fs symbol ModelType.lstm st).1)
      have h3 := loadStep_lookup_other fs symbol
        (show ModelType.lstm ≠ ModelType.attention_lstm by simp)
        ((loadStep fs symbol ModelType.gru (loadStep fs symbol ModelType.lstm st).1).1)
      exact ⟨h3.1.trans (h2.1.trans h1.1), h3.2.trans (h2.2.trans h1.2)⟩
  | gru =>
      have h1 := loadStep_lookup_other fs symbol
        (show ModelType.gru ≠ ModelType.lstm by simp) st
      have h2 := loadStep_lookup_self fs symbol ModelType.gru
        ((loadStep fs symbol ModelType.lstm st).1)
      have h3 := loadStep_lookup_other fs symbol
        (show ModelType.gru ≠ ModelType.attention_lstm by simp)
        ((loadStep fs symbol ModelType.gru (loadStep fs symbol ModelType.lstm st).1).1)
      refine ⟨h3.1.trans ?_, h3.2.trans ?_⟩
      · rw [h2.1]
        rcases (load_model fs ModelType.gru symbol).1 with _ | p
        · exact h1.1
        · rfl
      · rw [h2.2]
        rcases (load_model fs ModelType.gru symbol).1 with _ | p
        · exact h1.2
        · rfl
  | attention_lstm =>
      have h1 := loadStep_lookup_other fs symbol
        (show ModelType.attention_lstm ≠ ModelType.lstm by simp) st
      have h2 := loadStep_lookup_other fs symbol
        (show ModelType.attention_lstm ≠ ModelType.gru by simp)
        ((loadStep fs symbol ModelType.lstm st).1)
      have h3 := loadStep_lookup_self fs symbol ModelType.attention_lstm
        ((loadStep fs symbol ModelType.gru (loadStep fs symbol ModelType.lstm st).1).1)
      refine ⟨h3.1.trans ?_, h3.2.trans ?_⟩
      · rcases (load_model fs ModelType.attention_lstm symbol).1 with _ | p
        · exact h2.1.trans h1.1
        · rfl
      · rcases (load_model fs ModelType.attention_lstm symbol).1 with _ | p
        · exact h2.2.trans h1.2
        · rfl

lemma load_models_deserials (fs : FS) (symbol : String) (st : RegistryState) :
    ((load_models fs symbol st).1).deserials = st.deserials + loadCost fs symbol := by
  unfold load_models loadCost
  rw [loadStep_deserials, loadStep_deserials, loadStep_deserials]
  omega

lemma load_models_results (fs : FS) (symbol : String) (st st2 : RegistryState) :
    (load_models fs symbol st).2 = (load_models fs symbol st2).2 := by
  unfold load_models
  simp only [loadStep_snd]

lemma npStd_96_104 : npStd [(96 : ℝ), 104] = 4 := by
  unfold npStd npMean
  norm_num
  rw [show (16:ℝ) = 4 ^ 2 by norm_num]
  exact Real.sqrt_sq (by norm_num)

lemma npStd_95_105 : npStd [(95 : ℝ), 105] = 5 := by
  unfold npStd npMean
  norm_num
  rw [show (25:ℝ) = 5 ^ 2 by norm_num]
  exact Real.sqrt_sq (by norm_num)

lemma range_split (n : ℕ) (h : 49 ≤ n) :
    List.range n = List.range' 0 49 ++ List.range' 49 (n - 49) := by
  rw [List.range_eq_range']
  have h2 := List.range'_append 0 49 (n - 49) 1
  simp only [Nat.zero_add, Nat.one_mul] at h2
  conv_lhs => rw [show n = n - 49 + 49 from (Nat.sub_add_cancel h).symm]
  exact h2.symm

lemma filterMap_eq_map_of_forall_some {α β : Type} {f : α → Option β} {g : α → β}
    (l : List α) (h : ∀ a ∈ l, f a = some (g a)) : l.filterMap f = l.map g := by
  induction l with
  | nil => rfl
  | cons a t ih =>
      rw [List.filterMap_cons, h a (by simp), List.map_cons,
        ih (fun x hx => h x (by simp [hx]))]

lemma featureRow_eq_some (xs : List ℝ) (i : ℕ) (h49 : 49 ≤ i) (hi : i < xs.length) :
    featureRow xs i = some (featureAt xs i) := by
  have h20 : 20 ≤ i + 1 := by omega
  have h50 : 50 ≤ i + 1 := by omega
  unfold featureAt featureRow rollingMean rollingStd
  simp only [h20, h50, if_true, List.get?_eq_get hi]
  rfl

lemma featureRow_eq_none (xs : List ℝ) (i : ℕ) (h : i < 49) :
    featureRow xs i = none := by
  have h50 : ¬ (50 ≤ i + 1) := by omega
  unfold featureRow
  rw [show rollingMean 50 xs i = none from by unfold rollingMean; rw [if_neg h50]]
  rcases xs.get? i with _ | c
  · rfl
  · rcases rollingMean 20 xs i with _ | m
    · rfl
    · rfl

lemma validRows_eq (xs : List ℝ) :
    validRows xs = (List.range' 49 (xs.length - 49)).map (featureAt xs) := by
  unfold validRows
  by_cases h : 49 ≤ xs.length
  · rw [range_split xs.length h, List.filterMap_append]
    have h1 : (List.range' 0 49).filterMap (featureRow xs) = [] := by
      rw [List.filterMap_eq_nil_iff]
      intro a ha
      rcases List.mem_range'.mp ha with ⟨j, hj, rfl⟩
      exact featureRow_eq_none xs _ (by omega)
    have h2 : (List.range' 49 (xs.length - 49)).filterMap (featureRow xs)
        = (List.range' 49 (xs.length - 49)).map (featureAt xs) := by
      apply filterMap_eq_map_of_forall_some
      intro a ha
      rcases List.mem_range'.mp ha with ⟨j, hj, rfl⟩
      exact featureRow_eq_some xs _ (by omega) (by omega)
    rw [h1, h2, List.nil_append]
  · have hz : xs.length - 49 = 0 := by omega
    rw [hz]
    have h1 : (List.range xs.length).filterMap (featureRow xs) = [] := by
      rw [List.filterMap_eq_nil_iff]
      intro a ha
      exact featureRow_eq_none xs _ (by
        have := List.mem_range.mp ha
        omega)
    rw [h1]
    rfl

lemma validRows_length (xs : List ℝ) : (validRows xs).length = xs.length - 49 := by
  rw [validRows_eq, List.length_map, List.length_range']

lemma validRows_get (xs : List ℝ) (k : ℕ) (hk : k < (validRows xs).length) :
    (validRows xs)[k] = featureAt xs (49 + k) := by
  rw [List.getElem_of_eq (validRows_eq xs) hk, List.getElem_map, List.getElem_range']
  rw [Nat.one_mul]

/-! ## Claim theorems -/

/-- Claim C1, counterexample: with a fetchable current price, zero loadable models and
no fallback prediction, the no-models ValueError is raised inside the body of
predict_stock_price, yet the call completes with the empty predictions dict: the
error does not propagate to the caller. -/
theorem no_models_error_swallowed_cex :
    predictStockPriceBody (some 100) [] none "7d" =
      Except.error "No model predictions available. Please train models first."
    ∧ predict_stock_price (some 100) [] none "7d" = [] := by
  constructor <;> rfl

/-- Claim C1, amended: for every symbol for which zero models can be loaded and no
fallback prediction is obtained, the body of predict_stock_price raises the
NoModelsAvailable-style ValueError, but the method's own top-level exception handler
catches it and the call completes with an empty predictions dict; the error is not
propagated to the caller. -/
theorem no_models_returns_empty_dict (p : ℝ) (tf : String) :
    predictStockPriceBody (some p) [] none tf =
      Except.error "No model predictions available. Please train models first."
    ∧ predict_stock_price (some p) [] none tf = [] := by
  constructor <;> rfl

/-- Claim C2, counterexample: with a single well-formed lstm artifact pair on disk,
the first load_models call deserializes both files (counter 2) and a second call for
the same symbol deserializes them again (counter 4): deserialization is not performed
only once. -/
theorem load_models_redeserializes_cex :
    ((load_models fsOneModel "AAPL" emptyRegistry).1).deserials = 2
    ∧ ((load_models fsOneModel "AAPL"
        (load_models fsOneModel "AAPL" emptyRegistry).1).1).deserials = 4 := by
  constructor <;> rfl

/-- Claim C2, amended: calling load_models twice in sequence returns the same
availability results and leaves value-equal (model, scaler) pairs under every
registry key, but the second call performs the same number of artifact-file
deserializations again (loadCost more) instead of serving the pairs from the
in-memory map: the maps are written, never consulted, by load_models. -/
theorem load_models_value_equal_not_cached (fs : FS) (symbol : String)
    (st : RegistryState) :
    (load_models fs symbol (load_models fs symbol st).1).2
        = (load_models fs symbol st).2
    ∧ (∀ mt : ModelType,
        ((load_models fs symbol (load_models fs symbol st).1).1).models.lookup
            (registryKey mt symbol)
          = ((load_models fs symbol st).1).models.lookup (registryKey mt symbol)
        ∧ ((load_models fs symbol (load_models fs symbol st).1).1).scalers.lookup
            (registryKey mt symbol)
          = ((load_models fs symbol st).1).scalers.lookup (registryKey mt symbol))
    ∧ ((load_models fs symbol st).1).deserials = st.deserials + loadCost fs symbol
    ∧ ((load_models fs symbol (load_models fs symbol st).1).1).deserials
        = ((load_models fs symbol st).1).deserials + loadCost fs symbol := by
  refine ⟨load_models_results _ _ _ _, ?_, load_models_deserials _ _ _,
    load_models_deserials _ _ _⟩
  intro mt
  have h1 := load_models_lookup fs symbol st mt
  have h2 := load_models_lookup fs symbol ((load_models fs symbol st).1) mt
  constructor
  · rw [h2.1]
    rcases hl : (load_model fs mt symbol).1 with _ | p
    · rfl
    · rw [h1.1, hl]
  · rw [h2.2]
    rcases hl : (load_model fs mt symbol).1 with _ | p
    · rfl
    · rw [h1.2, hl]

/-- Claim C3, counterexample: when the stored lstm state dict for aapl holds only the
unexpected key foo, the strict load raises the architecture-mismatch error inside
_load_model, but the function then returns the generic (None, None) result — the same
result it returns when the files are absent altogether — so the mismatch is coerced
into a generic missing-model outcome. -/
theorem arch_mismatch_coerced_cex :
    load_model_attempt ["foo"] 7 ModelType.lstm "AAPL"
      = Except.error (LoadErr.archMismatch ModelType.lstm "AAPL")
    ∧ (load_model fsMismatch ModelType.lstm "AAPL").1 = none
    ∧ (load_model fsMismatch ModelType.lstm "AAPL").1
        = (load_model fsEmpty ModelType.lstm "AAPL").1 := by
  refine ⟨rfl, rfl, rfl⟩

/-- Claim C3, amended: whenever the stored state-dict keys do not match the requested
architecture, the strict load inside ModelLoader._load_model raises the
architecture-mismatch RuntimeError whose message names the architecture and symbol
and instructs retraining — but the blanket exception handler of the same function
then catches it, and the caller receives the generic (None, None) unavailable-model
result (after both files were deserialized), not the error. -/
theorem arch_mismatch_raised_then_coerced (fs : FS) (mt : ModelType)
    (symbol : String) (sd : List String) (sc : ℕ)
    (hw : fs.weight_files.lookup (model_path mt symbol) = some sd)
    (hs : fs.scaler_files.lookup (scaler_path mt symbol) = some sc)
    (hmis : loadStateDictOk sd mt = false) :
    load_model_attempt sd sc mt symbol
      = Except.error (LoadErr.archMismatch mt symbol)
    ∧ loadErrMessage (LoadErr.archMismatch mt symbol) = archMismatchMessage mt symbol
    ∧ (load_model fs mt symbol).1 = none
    ∧ (load_model fs mt symbol).2 = 2 := by
  have hatt : load_model_attempt sd sc mt symbol
      = Except.error (LoadErr.archMismatch mt symbol) := by
    unfold load_model_attempt
    rw [hmis]
    rfl
  refine ⟨hatt, rfl, ?_, ?_⟩ <;>
    simp [load_model, hw, hs, hatt]

/-- Witness for the amended claim C3, instantiated at the concrete mismatched
artifact directory. -/
theorem arch_mismatch_raised_then_coerced_witness :
    load_model_attempt ["foo"] 7 ModelType.lstm "MSFT"
      = Except.error (LoadErr.archMismatch ModelType.lstm "MSFT")
    ∧ loadErrMessage (LoadErr.archMismatch ModelType.lstm "MSFT")
        = archMismatchMessage ModelType.lstm "MSFT"
    ∧ (load_model
        { weight_files := [("lstm_msft.pth", ["foo"])],
          scaler_files := [("lstm_msft_scaler.pkl", 7)] } ModelType.lstm "MSFT").1
        = none
    ∧ (load_model
        { weight_files := [("lstm_msft.pth", ["foo"])],
          scaler_files := [("lstm_msft_scaler.pkl", 7)] } ModelType.lstm "MSFT").2
        = 2 :=
  arch_mismatch_raised_then_coerced
    { weight_files := [("lstm_msft.pth", ["foo"])],
      scaler_files := [("lstm_msft_scaler.pkl", 7)] }
    ModelType.lstm "MSFT" ["foo"] 7 rfl rfl rfl

/-- Claim C4: for every forecast and every horizon entry of the predictions dict, the
confidence equals the clamp of 0.85 minus ten times the ratio of the population
standard deviation of the contributing predictions to the current price, bounded to
the interval from 0.5 to 0.95, whenever at least two models contributed, and equals
0.75 otherwise (in particular with exactly one contributing model). -/
theorem ensemble_confidence_formula (p : ℝ) (preds : List (String × ℝ)) (i : ℕ)
    (hi : i < (makePredictions p preds).length) :
    ((makePredictions p preds).get ⟨i, hi⟩).2.confidence =
      if 2 ≤ preds.length then
        max 0.5 (min 0.95 (0.85 - 10 * (npStd (preds.map Prod.snd) / p)))
      else 0.75 := by
  have hc : ((makePredictions p preds).get ⟨i, hi⟩).2.confidence
      = horizonConfidence (preds.map Prod.snd) p := by
    rw [List.get_eq_getElem]
    unfold makePredictions
    simp only [List.getElem_map]
  rw [hc]
  unfold horizonConfidence confFromStd
  rw [List.length_map]
  by_cases h : 2 ≤ preds.length
  · rw [if_pos (by omega : 1 < preds.length), if_pos h]
    have hcomm : npStd (preds.map Prod.snd) / p * 10
        = 10 * (npStd (preds.map Prod.snd) / p) := by
      ring
    rw [hcomm]
  · rw [if_neg (by omega : ¬ 1 < preds.length), if_neg h]

/-- Witness for claim C4: a single-model forecast reports confidence 0.75 on its
first horizon entry. -/
theorem ensemble_confidence_formula_witness :
    ((makePredictions 100 [("lstm", (100:ℝ))]).get
      ⟨0, by simp [makePredictions, horizonMultipliers]⟩).2.confidence = 0.75 := by
  have h := ensemble_confidence_formula 100 [("lstm", (100:ℝ))] 0
    (by simp [makePredictions, horizonMultipliers])
  simpa using h

/-- Claim C5, counterexample: at current price 100 the model-prediction pairs 96/104
and 95/105 have standard deviations 4 and 5, yet both produce the same confidence
(the 0.5 floor): confidence is not strictly decreasing in the inter-model standard
deviation. -/
theorem confidence_not_strictly_decreasing_cex :
    npStd [(96 : ℝ), 104] < npStd [(95 : ℝ), 105]
    ∧ horizonConfidence [(96 : ℝ), 104] 100 = horizonConfidence [(95 : ℝ), 105] 100 := by
  constructor
  · rw [npStd_96_104, npStd_95_105]; norm_num
  · unfold horizonConfidence confFromStd
    rw [if_pos (by simp), if_pos (by simp), npStd_96_104, npStd_95_105]
    rw [show (0.85:ℝ) - 4 / 100 * 10 = 0.45 by norm_num,
      show (0.85:ℝ) - 5 / 100 * 10 = 0.35 by norm_num]
    rw [min_eq_right (by norm_num), min_eq_right (by norm_num),
      max_eq_left (by norm_num), max_eq_left (by norm_num)]

/-- Claim C5, amended: with at least two identical contributing predictions the
confidence equals exactly 0.85 — the largest value attainable at positive current
price, though not the 0.95 clamp ceiling — and for fixed positive current price the
confidence is non-increasing in the standard deviation, strictly decreasing only
while the unclamped score stays above the 0.5 floor. -/
theorem confidence_agreement_amended (p : ℝ) (hp : 0 < p) (l : List ℝ) (c : ℝ)
    (hlen : 2 ≤ l.length) (hall : ∀ x ∈ l, x = c)
    (s1 s2 : ℝ) (hs1 : 0 ≤ s1) (h12 : s1 ≤ s2) :
    horizonConfidence l p = 0.85
    ∧ confFromStd s2 p ≤ confFromStd s1 p
    ∧ (s1 < s2 → 0.5 < 0.85 - s2 / p * 10 → confFromStd s2 p < confFromStd s1 p) := by
  have hstd : npStd l = 0 := by
    have hlen0 : l.length ≠ 0 := by omega
    have hmean : npMean l = c := by
      unfold npMean
      rw [List.sum_eq_card_nsmul l c hall, nsmul_eq_mul]
      field_simp
    have hz : (l.map (fun x => (x - npMean l) ^ 2)).sum = 0 := by
      apply List.sum_eq_zero
      intro y hy
      rcases List.mem_map.mp hy with ⟨x, hx, rfl⟩
      rw [hmean, hall x hx]
      ring
    unfold npStd
    rw [hz, zero_div, Real.sqrt_zero]
  have hdivle : s1 / p ≤ s2 / p := by
    rw [div_le_div_iff_of_pos_right hp]
    exact h12
  refine ⟨?_, ?_, ?_⟩
  · unfold horizonConfidence confFromStd
    rw [if_pos (by omega : 1 < l.length), hstd]
    have hz2 : (0.85:ℝ) - 0 / p * 10 = 0.85 := by
      rw [zero_div]; ring
    rw [hz2, min_eq_right (by norm_num), max_eq_right (by norm_num)]
  · unfold confFromStd
    exact max_le_max le_rfl (min_le_min le_rfl (by linarith))
  · intro hs hfloor
    unfold confFromStd
    have hdivlt : s1 / p < s2 / p := by
      rw [div_lt_div_iff_of_pos_right hp]
      exact hs
    have h1le : 0.85 - s1 / p * 10 ≤ 0.85 := by
      have h0 : 0 ≤ s1 / p := div_nonneg hs1 (le_of_lt hp)
      linarith
    have h2lt : 0.85 - s2 / p * 10 < 0.85 - s1 / p * 10 := by linarith
    rw [min_eq_right (by linarith), min_eq_right (by linarith),
      max_eq_right (by linarith), max_eq_right (by linarith)]
    exact h2lt

/-- Witness for the amended claim C5, instantiated at price 100, the constant
prediction list of two copies of 2, and standard deviations 0 and 1. -/
theorem confidence_agreement_amended_witness :
    horizonConfidence [(2:ℝ), 2] 100 = 0.85
    ∧ confFromStd 1 100 ≤ confFromStd 0 100
    ∧ ((0:ℝ) < 1 → (0.5:ℝ) < 0.85 - 1 / 100 * 10 → confFromStd 1 100 < confFromStd 0 100) :=
  confidence_agreement_amended 100 (by norm_num) [(2:ℝ), 2] 2 (by simp) (by simp)
    0 1 (by norm_num) (by norm_num)

/-- Claim C6, counterexample: for the attention architecture the boundary never
surfaces a missing artifact as the 404 train-the-model-first condition — the endpoint
validates the model_type argument first and rejects anything but lstm and gru with a
400, before the explainability service (whose service-level error is still the
not-found error naming the requested architecture) is ever consulted. -/
theorem explain_boundary_400_cex :
    explain_prediction fsGruOnly "AAPL" ModelType.attention_lstm 5 5
      = Except.error (ExplainErr.artifactNotFound ModelType.attention_lstm "AAPL")
    ∧ explainEndpointResult fsGruOnly "AAPL" ModelType.attention_lstm 5 5
      = Except.error (400, "model_type must be 'lstm' or 'gru'")
    ∧ explainEndpointResult fsGruOnly "AAPL" ModelType.attention_lstm 5 5
      ≠ Except.error (404, upperStr (modelKey ModelType.attention_lstm) ++
          " model not trained for this symbol. Please train the model first.") := by
  refine ⟨rfl, rfl, ?_⟩
  intro h
  have h2 := Prod.mk.injEq 400 "model_type must be 'lstm' or 'gru'" 404
    (upperStr (modelKey ModelType.attention_lstm) ++
      " model not trained for this symbol. Please train the model first.")
  rw [show explainEndpointResult fsGruOnly "AAPL" ModelType.attention_lstm 5 5
      = Except.error (400, "model_type must be 'lstm' or 'gru'") from rfl] at h
  have h3 := Except.error.inj h
  rw [h2] at h3
  exact absurd h3.1 (by decide)

/-- Claim C6, amended: for every artifact directory, symbol and requested
architecture, if the weight file or the scaler file of that architecture-symbol pair
is absent, the explain operation fails with the FileNotFoundError naming the
requested architecture and symbol — never substituting an architecture whose
artifacts are present; at the API boundary, lstm and gru requests surface it as a 404
telling the caller to train the model first, while any other architecture is rejected
with a 400 by the endpoint's model_type validation before the service is called. -/
theorem explain_missing_artifact_amended (fs : FS) (symbol : String)
    (mt : ModelType) (xtr xte : ℕ)
    (hmiss : fs.weight_files.lookup (model_path mt symbol) = none
      ∨ fs.scaler_files.lookup (scaler_path mt symbol) = none) :
    explain_prediction fs symbol mt xtr xte
      = Except.error (ExplainErr.artifactNotFound mt symbol)
    ∧ ((mt = ModelType.lstm ∨ mt = ModelType.gru) →
        explainEndpointResult fs symbol mt xtr xte
          = Except.error (404, upperStr (modelKey mt) ++
              " model not trained for this symbol. Please train the model first."))
    ∧ (mt = ModelType.attention_lstm →
        explainEndpointResult fs symbol mt xtr xte
          = Except.error (400, "model_type must be 'lstm' or 'gru'")) := by
  have hload : load_model_and_data fs symbol mt xtr
      = Except.error (ExplainErr.artifactNotFound mt symbol) := by
    unfold load_model_and_data
    rcases hmiss with h | h
    · rw [h]
    · rcases hw2 : fs.weight_files.lookup (model_path mt symbol) with _ | sd
      · rfl
      · rw [h]
  refine ⟨by simp [explain_prediction, hload], ?_, ?_⟩
  · rintro (rfl | rfl) <;>
      simp [explainEndpointResult, explain_prediction, hload]
  · rintro rfl
    rfl

/-- Witness for the amended claim C6: the spec scenario — only a gru artifact pair
present, explanation requested for the lstm architecture — fails with the not-found
error for lstm and a 404 at the boundary (and the attention branch holds vacuously
for lstm). -/
theorem explain_missing_artifact_amended_witness :
    explain_prediction fsGruOnly "AAPL" ModelType.lstm 5 5
      = Except.error (ExplainErr.artifactNotFound ModelType.lstm "AAPL")
    ∧ ((ModelType.lstm = ModelType.lstm ∨ ModelType.lstm = ModelType.gru) →
        explainEndpointResult fsGruOnly "AAPL" ModelType.lstm 5 5
          = Except.error (404, upperStr (modelKey ModelType.lstm) ++
              " model not trained for this symbol. Please train the model first."))
    ∧ (ModelType.lstm = ModelType.attention_lstm →
        explainEndpointResult fsGruOnly "AAPL" ModelType.lstm 5 5
          = Except.error (400, "model_type must be 'lstm' or 'gru'")) :=
  explain_missing_artifact_amended fsGruOnly "AAPL" ModelType.lstm 5 5 (Or.inl rfl)

/-- Claim C7: the output recovery used by ModelLoader.predict and the base-value and
prediction recovery used by the explain operation are the same procedure, and both
coincide with the spec description: place the scalar into the close-price slot of a
four-entry row, zero-fill the other slots, apply the paired scaler inverse transform,
and read back the close-price slot. -/
theorem output_recovery_close_slot (s : MinMaxScaler) (v : ℝ) :
    recoverPrice s v = specOutputRecovery s v
    ∧ recoverBaseValue s v = specOutputRecovery s v := by
  constructor
  · unfold recoverPrice specOutputRecovery inverse_transform
    norm_num
  · unfold recoverBaseValue specOutputRecovery inverse_transform
    norm_num [Function.update_apply]

/-- Claim C8: the feature builder turns an n-row close series into n minus 49 valid
feature rows (the warm-up rows of the longest rolling statistic are dropped); when
fewer than 120 valid rows remain it returns none and the predict path performs no
scaling or inference; and when it succeeds it returns exactly 120 rows, the j-th
returned row being the defined feature row (close, MA 20, MA 50, rolling standard
deviation) at source index n minus 120 plus j. -/
theorem feature_window_builder_spec (xs : List ℝ) :
    (validRows xs).length = xs.length - 49
    ∧ ((validRows xs).length < 120 →
        prepare_data_for_prediction xs 120 = none
        ∧ ∀ (s : MinMaxScaler) (net : List (Fin 4 → ℝ) → ℝ),
            predictFromData s net xs = none)
    ∧ (∀ w, prepare_data_for_prediction xs 120 = some w →
        w.length = 120
        ∧ ∀ j, ∀ hj : j < w.length,
            featureRow xs (xs.length - 120 + j) = some (w.get ⟨j, hj⟩)) := by
  refine ⟨validRows_length xs, ?_, ?_⟩
  · intro h120
    have hprep : prepare_data_for_prediction xs 120 = none := by
      unfold prepare_data_for_prediction
      by_cases he : xs.isEmpty
      · rw [if_pos he]
      · rw [if_neg he, if_pos h120]
    refine ⟨hprep, ?_⟩
    intro s net
    unfold predictFromData
    rw [hprep]
  · intro w hw
    unfold prepare_data_for_prediction at hw
    by_cases he : xs.isEmpty
    · rw [if_pos he] at hw
      exact Option.noConfusion hw
    · rw [if_neg he] at hw
      by_cases hlen : (validRows xs).length < 120
      · rw [if_pos hlen] at hw
        exact Option.noConfusion hw
      · rw [if_neg hlen] at hw
        have hn : 169 ≤ xs.length := by
          have hv := validRows_length xs
          have hne : xs ≠ [] := by
            intro hxe
            exact he (by simp [hxe])
          have hpos : 0 < xs.length := List.length_pos.mpr hne
          omega
        have hw2 := Option.some.inj hw
        subst hw2
        constructor
        · rw [List.length_drop, validRows_length]
          omega
        · intro j hj
          have hj120 : j < 120 := by
            have hj2 := hj
            rw [List.length_drop, validRows_length] at hj2
            omega
          have hkb : (validRows xs).length - 120 + j < (validRows xs).length := by
            rw [validRows_length]
            omega
          rw [List.get_eq_getElem, List.getElem_drop,
            validRows_get xs ((validRows xs).length - 120 + j) hkb]
          rw [validRows_length,
            show xs.length - 120 + j = 49 + (xs.length - 49 - 120 + j) from by omega]
          exact featureRow_eq_some xs _ (by omega) (by omega)

/-- Witness for claim C8: a 100-row series leaves 51 valid rows, so preparation and
prediction both return none; a 200-row series leaves 151 valid rows and the prepared
window has exactly 120 rows. -/
theorem feature_window_builder_spec_witness :
    prepare_data_for_prediction (List.replicate 100 (1:ℝ)) 120 = none
    ∧ predictFromData ⟨fun _ => 0, fun _ => 1⟩ (fun _ => 0)
        (List.replicate 100 (1:ℝ)) = none
    ∧ ((validRows (List.replicate 200 (1:ℝ))).drop
        ((validRows (List.replicate 200 (1:ℝ))).length - 120)).length = 120 := by
  have h100 : (validRows (List.replicate 100 (1:ℝ))).length < 120 := by
    rw [validRows_length, List.length_replicate]
    decide
  have hsome : prepare_data_for_prediction (List.replicate 200 (1:ℝ)) 120
      = some ((validRows (List.replicate 200 (1:ℝ))).drop
          ((validRows (List.replicate 200 (1:ℝ))).length - 120)) := by
    unfold prepare_data_for_prediction
    have hne : ¬ ((List.replicate 200 (1:ℝ)).isEmpty = true) := by
      rw [List.isEmpty_iff]
      intro hcontr
      have hlen := congrArg List.length hcontr
      rw [List.length_replicate] at hlen
      exact absurd hlen (by decide)
    have hbig : ¬ ((validRows (List.replicate 200 (1:ℝ))).length < 120) := by
      rw [validRows_length, List.length_replicate]
      decide
    rw [if_neg hne, if_neg hbig]
  exact ⟨((feature_window_builder_spec (List.replicate 100 (1:ℝ))).2.1 h100).1,
    ((feature_window_builder_spec (List.replicate 100 (1:ℝ))).2.1 h100).2 _ _,
    ((feature_window_builder_spec (List.replicate 200 (1:ℝ))).2.2 _ hsome).1⟩

/-- Claim C9: for every forecast with positive current price, the 30d horizon price
deviates from the current price by at least as much as the 7d horizon price, because
both horizons scale the same base change by the fixed multipliers 1.0 and 1.8. -/
theorem horizon_deviation_monotone (p : ℝ) (preds : List (String × ℝ)) (hp : 0 < p) :
    |horizonPrice p preds "7d" - p| ≤ |horizonPrice p preds "30d" - p| := by
  have e7 : horizonPrice p preds "7d" - p
      = p * baseChange (npMean (preds.map Prod.snd)) p := by
    have h : horizonPrice p preds "7d"
        = p * (1 + baseChange (npMean (preds.map Prod.snd)) p * 1) := rfl
    rw [h]; ring
  have e30 : horizonPrice p preds "30d" - p
      = p * baseChange (npMean (preds.map Prod.snd)) p * 1.8 := by
    have h : horizonPrice p preds "30d"
        = p * (1 + baseChange (npMean (preds.map Prod.snd)) p * 1.8) := rfl
    rw [h]; ring
  have h18 : |(1.8:ℝ)| = 1.8 := abs_of_nonneg (by norm_num)
  rw [e7, e30, abs_mul (p * baseChange (npMean (preds.map Prod.snd)) p) 1.8, h18]
  nlinarith [abs_nonneg (p * baseChange (npMean (preds.map Prod.snd)) p)]

/-- Witness for claim C9 at price 100 and a single model predicting 110. -/
theorem horizon_deviation_monotone_witness :
    |horizonPrice 100 [("lstm", (110:ℝ))] "7d" - 100|
      ≤ |horizonPrice 100 [("lstm", (110:ℝ))] "30d" - 100| :=
  horizon_deviation_monotone 100 [("lstm", (110:ℝ))] (by norm_num)

/-- Claim C10, counterexample: the predictions mapping is indeed independent of the
timeframe argument, but it does not always contain the three horizon keys — when no
model prediction is available the mapping returned is empty. -/
theorem timeframe_keys_cex :
    predict_stock_price (some 50) [] none "7d"
      = predict_stock_price (some 50) [] none "15d"
    ∧ (predict_stock_price (some 50) [] none "7d").map Prod.fst ≠ ["7d", "15d", "30d"] := by
  constructor
  · rfl
  · simp [predict_stock_price, predictStockPriceBody, effectivePreds]

/-- Claim C10, amended: for every market-data input, loader predictions, fallback and
any two timeframe arguments, predict_stock_price returns the same predictions
mapping — the timeframe argument never influences prices, confidences or the
contributing-model map — and every successfully computed mapping contains exactly the
three horizon keys 7d, 15d and 30d; on total failure the returned mapping is empty
instead. -/
theorem timeframe_noninterference (info : Option ℝ) (preds : List (String × ℝ))
    (fb : Option ℝ) (t1 t2 : String) :
    predict_stock_price info preds fb t1 = predict_stock_price info preds fb t2
    ∧ (∀ r, predictStockPriceBody info preds fb t1 = Except.ok r →
        r.map Prod.fst = ["7d", "15d", "30d"]) := by
  refine ⟨rfl, ?_⟩
  intro r h
  unfold predictStockPriceBody at h
  cases info with
  | none => exact Except.noConfusion h
  | some p =>
    rcases hemp : (effectivePreds preds fb).isEmpty
    · simp only [hemp, Bool.false_eq_true, if_false] at h
      rw [← Except.ok.inj h]
      simp [makePredictions, horizonMultipliers]
    · simp [hemp] at h

/-- Witness for the amended claim C10: with one model prediction at price 4, the body
succeeds with the three horizon keys, and two different timeframes give the same
result. -/
theorem timeframe_noninterference_witness :
    (makePredictions 4 [("lstm", (5:ℝ))]).map Prod.fst = ["7d", "15d", "30d"]
    ∧ predict_stock_price (some 4) [("lstm", (5:ℝ))] none "7d"
        = predict_stock_price (some 4) [("lstm", (5:ℝ))] none "1d" :=
  ⟨(timeframe_noninterference (some 4) [("lstm", (5:ℝ))] none "7d" "1d").2 _ rfl,
   (timeframe_noninterference (some 4) [("lstm", (5:ℝ))] none "7d" "1d").1⟩

end TradingForecast
